import Mathlib

/-!
# Check-timer supervisor of the RISC-V Bluespec Piccolo demo

Shallow embedding of `demo/main_minimal.c` and `demo/main_full.c`
(`FreeRTOS/Demo/RISC-V_Bluespec_Picollo`).  The kernel, the standard demo
tasks and `printf` are external to these files: every call into them is
recorded as an event of an explicit trace, and every value they hand back is
an input of the model.
-/

namespace Demo

/-! ## Values owned by the kernel headers -/

/-- Kernel constants and macros used by the two files; `projdefs.h`, `task.h`
and `FreeRTOSConfig.h` are external, so their values are inputs of the model. -/
structure PortConfig where
  /-- `pdPASS`, the value a health predicate returns when all is well. -/
  pdPASS : Int
  /-- `pdTRUE`, passed as the auto-reload flag of `xTimerCreate`. -/
  pdTRUE : Int
  /-- The macro `pdMS_TO_TICKS`, milliseconds to ticks. -/
  pdMS_TO_TICKS : Nat → Nat
  /-- `tskIDLE_PRIORITY`. -/
  tskIDLE_PRIORITY : Nat
  /-- `configMINIMAL_STACK_SIZE`. -/
  configMINIMAL_STACK_SIZE : Nat

/-- Modelled from the spec: `pdFALSE` comes from the kernel header `projdefs.h`,
which is external; the per-period contract initialises an empty failure bitmask with
it and the all-healthy outcome is the bitmask being zero, so it is `0`. -/
def pdFALSE : Nat := 0

/-- `NULL` as a timer handle. -/
def NULL : Nat := 0

/-- `INT_MAX` of the 32-bit `int` of the RISC-V ABIs. -/
def INT_MAX : Int := 2147483647

/-- `INT_MIN` of the 32-bit `int` of the RISC-V ABIs. -/
def INT_MIN : Int := -2147483648

/-- The value `count++` stores for a 32-bit `int`: one more, wrapping in two's
complement at `INT_MAX`. -/
def intIncr (c : Int) : Int := (c + 1 + 2147483648) % 4294967296 - 2147483648

/-! ## Events -/

/-- The health predicates of the standard demo tasks called by the callbacks,
named as in the source. -/
inductive Predicate where
  | xAreAbortDelayTestTasksStillRunning
  | xAreBlockingQueuesStillRunning
  | xAreBlockTimeTestTasksStillRunning
  | xAreCountingSemaphoreTasksStillRunning
  | xAreDynamicPriorityTasksStillRunning
  | xIsCreateTaskStillRunning
  | xAreIntegerMathsTaskStillRunning
  | xAreMessageBufferTasksStillRunning
  | xArePollingQueuesStillRunning
  | xAreQueuePeekTasksStillRunning
  | xAreRecursiveMutexTasksStillRunning
  | xAreSemaphoreTasksStillRunning
  deriving DecidableEq

/-- What a check-timer callback does that is visible outside it. -/
inductive Event where
  /-- A call of a health predicate, with the value it returned. -/
  | call (p : Predicate) (ret : Int)
  /-- A `printf` call: the format string and the integer arguments after it. -/
  | printf (fmt : String) (args : List Int)
  /-- An `__asm volatile` statement. -/
  | asm (instr : String)
  deriving DecidableEq

/-- The locals of a callback while it runs, with the events so far. -/
structure Frame where
  out : List Event
  ulErrorFound : Nat
  deriving DecidableEq

/-- What one invocation of a callback leaves behind: its events in order, the
final value of the local `ulErrorFound`, and the new value of the static
`count`. -/
structure Period where
  out : List Event
  ulErrorFound : Nat
  count : Int
  deriving DecidableEq

/-- One check of a callback:
`if( p() != pdPASS ) { printf( msg ); ulErrorFound |= ( 0x01UL << bit ); }`.
`results p` is the value the call of `p` returns in this period.  The
`unsigned long` is a natural number: the shifts used are by at most 13, far
from its width, so nothing is ever truncated. -/
def check (K : PortConfig) (results : Predicate → Int) (p : Predicate) (msg : String)
    (bit : Nat) (f : Frame) : Frame :=
  if results p ≠ K.pdPASS then
    { out := f.out ++ [Event.call p (results p), Event.printf msg []],
      ulErrorFound := f.ulErrorFound ||| (0x01 <<< bit) }
  else
    { out := f.out ++ [Event.call p (results p)],
      ulErrorFound := f.ulErrorFound }

/-! ## main_minimal.c -/

namespace MainMinimal

/-- `prvCheckTimerCallback` of `main_minimal.c`, lines 166-267; `count` is the
value of the static counter on entry. -/
def prvCheckTimerCallback (K : PortConfig) (results : Predicate → Int) (count : Int) :
    Period :=
  let f : Frame := { out := [], ulErrorFound := pdFALSE }
  let f := check K results .xAreAbortDelayTestTasksStillRunning
    "Error in xAreAbortDelayTestTasksStillRunning()\r\n" 1 f
  let f := check K results .xAreBlockingQueuesStillRunning
    "Error in xAreBlockingQueuesStillRunning()\r\n" 2 f
  let f := check K results .xAreBlockTimeTestTasksStillRunning
    "Error in xAreBlockTimeTestTasksStillRunning() \r\n" 3 f
  let f := check K results .xAreCountingSemaphoreTasksStillRunning
    "Error in xAreCountingSemaphoreTasksStillRunning() \r\n" 4 f
  let f := check K results .xAreDynamicPriorityTasksStillRunning
    "Error in xAreDynamicPriorityTasksStillRunning()\r\n" 5 f
  let f := check K results .xIsCreateTaskStillRunning
    "Error in xIsCreateTaskStillRunning() \r\n" 6 f
  let f := check K results .xAreIntegerMathsTaskStillRunning
    "Error in xAreIntegerMathsTaskStillRunning() \r\n" 7 f
  let f := check K results .xAreMessageBufferTasksStillRunning
    "Error in xAreMessageBufferTasksStillRunning() \r\n" 8 f
  let f := check K results .xArePollingQueuesStillRunning
    "Error in xArePollingQueuesStillRunning() \r\n" 10 f
  let f := check K results .xAreQueuePeekTasksStillRunning
    "Error in xAreQueuePeekTasksStillRunning() \r\n" 11 f
  let f := check K results .xAreRecursiveMutexTasksStillRunning
    "Error in xAreRecursiveMutexTasksStillRunning() \r\n" 12 f
  let f := check K results .xAreSemaphoreTasksStillRunning
    "Error in xAreSemaphoreTasksStillRunning() \r\n" 13 f
  if f.ulErrorFound ≠ pdFALSE then
    { out := f.out ++ [Event.asm "li t6, 0xbeefdead",
        Event.printf "[%d] One or more threads has exited! \r\n" [count]],
      ulErrorFound := f.ulErrorFound,
      count := intIncr count }
  else
    { out := f.out ++ [Event.asm "li t6, 0xdeadbeef",
        Event.printf "[%d] All threads still alive! \r\n" [count]],
      ulErrorFound := f.ulErrorFound,
      count := intIncr count }

end MainMinimal

/-! ## main_full.c -/

namespace MainFull

/-- `prvCheckTimerCallback` of `main_full.c`, lines 139-181; `count` is the
value of the static counter on entry.  The counter is read and advanced by
the `count++` inside the `printf` of the else branch only. -/
def prvCheckTimerCallback (K : PortConfig) (results : Predicate → Int) (count : Int) :
    Period :=
  let f : Frame := { out := [], ulErrorFound := pdFALSE }
  let f := check K results .xAreAbortDelayTestTasksStillRunning
    "Error in abort delay test tasks \r\n" 1 f
  if f.ulErrorFound ≠ pdFALSE then
    { out := f.out ++ [Event.asm "li t6, 0xbeefdead",
        Event.printf "One or more threads has exited! \r\n" []],
      ulErrorFound := f.ulErrorFound,
      count := count }
  else
    { out := f.out ++ [Event.asm "li t6, 0xdeadbeef",
        Event.printf "[%d] All threads still alive! \r\n" [count]],
      ulErrorFound := f.ulErrorFound,
      count := intIncr count }

end MainFull

/-! ## Setup: `main_minimal` and `main_full` -/

/-- The two static functions named `prvCheckTimerCallback`, one per file, as
they are passed to `xTimerCreate`. -/
inductive CallbackRef where
  | main_minimal_prvCheckTimerCallback
  | main_full_prvCheckTimerCallback
  deriving DecidableEq

/-- The function a callback reference stands for. -/
def CallbackRef.run : CallbackRef → PortConfig → (Predicate → Int) → Int → Period
  | .main_minimal_prvCheckTimerCallback => MainMinimal.prvCheckTimerCallback
  | .main_full_prvCheckTimerCallback => MainFull.prvCheckTimerCallback

/-- The external calls a setup routine makes, with their arguments.  All of
them return to the caller, except possibly `vTaskStartScheduler`. -/
inductive Call where
  | vCreateAbortDelayTasks
  | vStartBlockingQueueTasks (uxPriority : Nat)
  | vCreateBlockTimeTasks
  | vStartCountingSemaphoreTasks
  | vStartDynamicPriorityTasks
  | vStartIntegerMathTasks (uxPriority : Nat)
  | vStartMessageBufferTasks (xStackSize : Nat)
  | vStartPolledQueueTasks (uxPriority : Nat)
  | vStartQueuePeekTasks
  | vStartRecursiveMutexTasks
  | vStartSemaphoreTasks (uxPriority : Nat)
  | xTimerCreate (pcTimerName : String) (xTimerPeriodInTicks : Nat) (uxAutoReload : Int)
      (pvTimerID : Nat) (pxCallbackFunction : CallbackRef)
  | xTimerStart (xTimer : Nat) (xTicksToWait : Nat)
  | vCreateSuicidalTasks (uxPriority : Nat)
  | vTaskStartScheduler
  deriving DecidableEq

/-- What the kernel decides during setup. -/
structure SetupInput where
  /-- The handle `xTimerCreate` returns; `NULL` when the timer could not be
  created. -/
  xTimerCreate : Nat
  /-- Whether `vTaskStartScheduler` returns (it does only when the idle or
  timer task could not be created). -/
  vTaskStartSchedulerReturns : Bool
  deriving DecidableEq

/-- Where a setup routine ends up: neither `main_minimal` nor `main_full`
returns. -/
inductive Final where
  /-- The scheduler took over inside `vTaskStartScheduler`. -/
  | schedulerRunning
  /-- Control sits in the trailing `for( ;; );`. -/
  | forEver
  deriving DecidableEq

/-- A run of a setup routine: its external calls in order, and where it ends. -/
structure SetupRun where
  calls : List Call
  final : Final
  deriving DecidableEq

namespace MainMinimal

/-- The macro `mainCHECK_TIMER_PERIOD_MS`. -/
def mainCHECK_TIMER_PERIOD_MS (K : PortConfig) : Nat := K.pdMS_TO_TICKS 3000

/-- The macro `mainDONT_BLOCK`. -/
def mainDONT_BLOCK : Nat := 0

def mainBLOCK_Q_PRIORITY (K : PortConfig) : Nat := K.tskIDLE_PRIORITY + 2

def mainSUICIDAL_TASK_PRIORITY (K : PortConfig) : Nat := K.tskIDLE_PRIORITY + 1

def mainINTEGER_TASK_PRIORITY (K : PortConfig) : Nat := K.tskIDLE_PRIORITY + 1

def mainQUEUE_POLL_PRIORITY (K : PortConfig) : Nat := K.tskIDLE_PRIORITY + 1

def mainSEM_TEST_PRIORITY (K : PortConfig) : Nat := K.tskIDLE_PRIORITY + 1

/-- `main_minimal` of `main_minimal.c`, lines 113-162. -/
def main_minimal (K : PortConfig) (E : SetupInput) : SetupRun :=
  let calls : List Call :=
    [ Call.vCreateAbortDelayTasks,
      Call.vStartBlockingQueueTasks (mainBLOCK_Q_PRIORITY K),
      Call.vCreateBlockTimeTasks,
      Call.vStartCountingSemaphoreTasks,
      Call.vStartDynamicPriorityTasks,
      Call.vStartIntegerMathTasks (mainINTEGER_TASK_PRIORITY K),
      Call.vStartMessageBufferTasks (K.configMINIMAL_STACK_SIZE * 2),
      Call.vStartPolledQueueTasks (mainQUEUE_POLL_PRIORITY K),
      Call.vStartQueuePeekTasks,
      Call.vStartRecursiveMutexTasks,
      Call.vStartSemaphoreTasks (mainSEM_TEST_PRIORITY K),
      Call.xTimerCreate "CheckTimer" (mainCHECK_TIMER_PERIOD_MS K) K.pdTRUE 0
        CallbackRef.main_minimal_prvCheckTimerCallback ]
  let xCheckTimer : Nat := E.xTimerCreate
  let calls :=
    if xCheckTimer ≠ NULL then calls ++ [Call.xTimerStart xCheckTimer mainDONT_BLOCK]
    else calls
  let calls := calls ++ [Call.vCreateSuicidalTasks (mainSUICIDAL_TASK_PRIORITY K)]
  let calls := calls ++ [Call.vTaskStartScheduler]
  { calls := calls,
    final := if E.vTaskStartSchedulerReturns then Final.forEver else Final.schedulerRunning }

end MainMinimal

namespace MainFull

/-- The macro `mainCHECK_TIMER_PERIOD_MS`. -/
def mainCHECK_TIMER_PERIOD_MS (K : PortConfig) : Nat := K.pdMS_TO_TICKS 3000

/-- The macro `mainDONT_BLOCK`. -/
def mainDONT_BLOCK : Nat := 0

/-- `main_full` of `main_full.c`, lines 95-135. -/
def main_full (K : PortConfig) (E : SetupInput) : SetupRun :=
  let calls : List Call :=
    [ Call.vCreateAbortDelayTasks,
      Call.xTimerCreate "CheckTimer" (mainCHECK_TIMER_PERIOD_MS K) K.pdTRUE 0
        CallbackRef.main_full_prvCheckTimerCallback ]
  let xCheckTimer : Nat := E.xTimerCreate
  let calls :=
    if xCheckTimer ≠ NULL then calls ++ [Call.xTimerStart xCheckTimer mainDONT_BLOCK]
    else calls
  let calls := calls ++ [Call.vTaskStartScheduler]
  { calls := calls,
    final := if E.vTaskStartSchedulerReturns then Final.forEver else Final.schedulerRunning }

end MainFull

/-! ## Successive periods -/

/-- The auto-reload timer expiring once per entry of `periods`: the callback of
`main_minimal.c` is invoked with that period's predicate results, and the static
`count` is carried from one invocation to the next.  Gives all the events in
order and the final value of `count`. -/
def runPeriods (K : PortConfig) : List (Predicate → Int) → Int → List Event × Int
  | [], count => ([], count)
  | results :: periods, count =>
    let r := MainMinimal.prvCheckTimerCallback K results count
    let rest := runPeriods K periods r.count
    (r.out ++ rest.1, rest.2)

/-! ## Vocabulary of the properties -/

/-- The predicates in the order `main_minimal.c` calls them. -/
def evaluationOrder : List Predicate :=
  [ .xAreAbortDelayTestTasksStillRunning,
    .xAreBlockingQueuesStillRunning,
    .xAreBlockTimeTestTasksStillRunning,
    .xAreCountingSemaphoreTasksStillRunning,
    .xAreDynamicPriorityTasksStillRunning,
    .xIsCreateTaskStillRunning,
    .xAreIntegerMathsTaskStillRunning,
    .xAreMessageBufferTasksStillRunning,
    .xArePollingQueuesStillRunning,
    .xAreQueuePeekTasksStillRunning,
    .xAreRecursiveMutexTasksStillRunning,
    .xAreSemaphoreTasksStillRunning ]

/-- The per-activity line of each predicate in `main_minimal.c`. -/
def errorLine : Predicate → String
  | .xAreAbortDelayTestTasksStillRunning => "Error in xAreAbortDelayTestTasksStillRunning()\r\n"
  | .xAreBlockingQueuesStillRunning => "Error in xAreBlockingQueuesStillRunning()\r\n"
  | .xAreBlockTimeTestTasksStillRunning => "Error in xAreBlockTimeTestTasksStillRunning() \r\n"
  | .xAreCountingSemaphoreTasksStillRunning =>
    "Error in xAreCountingSemaphoreTasksStillRunning() \r\n"
  | .xAreDynamicPriorityTasksStillRunning => "Error in xAreDynamicPriorityTasksStillRunning()\r\n"
  | .xIsCreateTaskStillRunning => "Error in xIsCreateTaskStillRunning() \r\n"
  | .xAreIntegerMathsTaskStillRunning => "Error in xAreIntegerMathsTaskStillRunning() \r\n"
  | .xAreMessageBufferTasksStillRunning => "Error in xAreMessageBufferTasksStillRunning() \r\n"
  | .xArePollingQueuesStillRunning => "Error in xArePollingQueuesStillRunning() \r\n"
  | .xAreQueuePeekTasksStillRunning => "Error in xAreQueuePeekTasksStillRunning() \r\n"
  | .xAreRecursiveMutexTasksStillRunning => "Error in xAreRecursiveMutexTasksStillRunning() \r\n"
  | .xAreSemaphoreTasksStillRunning => "Error in xAreSemaphoreTasksStillRunning() \r\n"

/-- The bit of `ulErrorFound` each predicate owns in `main_minimal.c`. -/
def bitOf : Predicate → Nat
  | .xAreAbortDelayTestTasksStillRunning => 1
  | .xAreBlockingQueuesStillRunning => 2
  | .xAreBlockTimeTestTasksStillRunning => 3
  | .xAreCountingSemaphoreTasksStillRunning => 4
  | .xAreDynamicPriorityTasksStillRunning => 5
  | .xIsCreateTaskStillRunning => 6
  | .xAreIntegerMathsTaskStillRunning => 7
  | .xAreMessageBufferTasksStillRunning => 8
  | .xArePollingQueuesStillRunning => 10
  | .xAreQueuePeekTasksStillRunning => 11
  | .xAreRecursiveMutexTasksStillRunning => 12
  | .xAreSemaphoreTasksStillRunning => 13

/-- The summary line printed when a check failed, in `main_minimal.c`. -/
def exitedLine : String := "[%d] One or more threads has exited! \r\n"

/-- The summary line printed when no check failed. -/
def aliveLine : String := "[%d] All threads still alive! \r\n"

/-- The summary line of `main_full.c` for a failed check. -/
def exitedLineFull : String := "One or more threads has exited! \r\n"

/-- A predicate call, whatever it returned. -/
def Event.callee : Event → Option Predicate
  | .call p _ => some p
  | _ => none

/-- A per-activity line: a `printf` of one of the twelve error lines. -/
def Event.isErrorLine : Event → Bool
  | .printf fmt _ => decide (∃ p ∈ evaluationOrder, errorLine p = fmt)
  | _ => false

/-- A summary line: a `printf` of one of the closing lines. -/
def Event.isSummary : Event → Bool
  | .printf fmt _ => decide (fmt = exitedLine ∨ fmt = aliveLine ∨ fmt = exitedLineFull)
  | _ => false

/-- What one check contributes to the trace: the call, then the error line
when the predicate did not return `pdPASS`. -/
def segment (K : PortConfig) (results : Predicate → Int) (p : Predicate) : List Event :=
  Event.call p (results p) ::
    (if results p ≠ K.pdPASS then [Event.printf (errorLine p) []] else [])

/-- Whether a setup call is `xTimerCreate`. -/
def Call.isTimerCreate : Call → Bool
  | .xTimerCreate _ _ _ _ _ => true
  | _ => false

/-- Whether a setup call is `xTimerStart`. -/
def Call.isTimerStart : Call → Bool
  | .xTimerStart _ _ => true
  | _ => false

/-- The calls made before the first `vTaskStartScheduler`. -/
def beforeScheduler (calls : List Call) : List Call :=
  calls.takeWhile fun c => decide (c ≠ Call.vTaskStartScheduler)

/-- Whether a predicate reported failure in a period. -/
def failed (K : PortConfig) (results : Predicate → Int) (p : Predicate) : Bool :=
  decide (results p ≠ K.pdPASS)

/-- Sample kernel constants: `pdPASS` and `pdTRUE` are 1, one tick per
millisecond. -/
def K0 : PortConfig :=
  { pdPASS := 1, pdTRUE := 1, pdMS_TO_TICKS := fun ms => ms, tskIDLE_PRIORITY := 0,
    configMINIMAL_STACK_SIZE := 128 }

/-- A period in which every predicate returns 0, which is not `K0.pdPASS`. -/
def allFail : Predicate → Int := fun _ => 0

/-- A period in which every predicate returns `K0.pdPASS`. -/
def allPass : Predicate → Int := fun _ => 1

/-- A period in which `xArePollingQueuesStillRunning`, the ninth predicate,
returns 0 and the others return `K0.pdPASS`. -/
def onlyPollingQueuesFails : Predicate → Int :=
  fun p => if p = Predicate.xArePollingQueuesStillRunning then 0 else 1

/-- The checks of `main_minimal.c` as a table: predicate, error line, bit. -/
def checkTable : List (Predicate × String × Nat) :=
  evaluationOrder.map fun p => (p, errorLine p, bitOf p)

/-- A table of checks run one after the other on a frame. -/
def runChecks (K : PortConfig) (results : Predicate → Int) :
    List (Predicate × String × Nat) → Frame → Frame
  | [], f => f
  | (p, msg, bit) :: t, f => runChecks K results t (check K results p msg bit f)

/-- The closing statement of the callback of `main_minimal.c` on a frame. -/
def closing (count : Int) (f : Frame) : Period :=
  if f.ulErrorFound ≠ pdFALSE then
    { out := f.out ++ [Event.asm "li t6, 0xbeefdead", Event.printf exitedLine [count]],
      ulErrorFound := f.ulErrorFound,
      count := intIncr count }
  else
    { out := f.out ++ [Event.asm "li t6, 0xdeadbeef", Event.printf aliveLine [count]],
      ulErrorFound := f.ulErrorFound,
      count := intIncr count }

/-! ## The callback of `main_minimal.c` as a run over its table -/

theorem prvCheckTimerCallback_eq_closing (K : PortConfig) (results : Predicate → Int)
    (count : Int) :
    MainMinimal.prvCheckTimerCallback K results count =
      closing count (runChecks K results checkTable { out := [], ulErrorFound := pdFALSE }) :=
  rfl

theorem check_out (K : PortConfig) (results : Predicate → Int) (p : Predicate) (f : Frame) :
    (check K results p (errorLine p) (bitOf p) f).out = f.out ++ segment K results p := by
  unfold check segment
  split <;> simp

theorem check_ulErrorFound (K : PortConfig) (results : Predicate → Int) (p : Predicate)
    (msg : String) (bit : Nat) (f : Frame) :
    (check K results p msg bit f).ulErrorFound =
      if results p ≠ K.pdPASS then f.ulErrorFound ||| 2 ^ bit else f.ulErrorFound := by
  unfold check
  split <;> simp [Nat.one_shiftLeft]

theorem runChecks_out (K : PortConfig) (results : Predicate → Int) (T : List Predicate)
    (f : Frame) :
    (runChecks K results (T.map fun p => (p, errorLine p, bitOf p)) f).out =
      f.out ++ T.flatMap (segment K results) := by
  induction T generalizing f with
  | nil => simp [runChecks]
  | cons p T ih => simp [runChecks, ih, check_out, List.append_assoc]

theorem runChecks_testBit (K : PortConfig) (results : Predicate → Int) (T : List Predicate)
    (f : Frame) (k : Nat) :
    (runChecks K results (T.map fun p => (p, errorLine p, bitOf p)) f).ulErrorFound.testBit k =
      (f.ulErrorFound.testBit k ||
        T.any fun p => decide (bitOf p = k ∧ results p ≠ K.pdPASS)) := by
  induction T generalizing f with
  | nil => simp [runChecks]
  | cons p T ih =>
    simp only [List.map_cons, runChecks, ih, check_ulErrorFound, List.any_cons]
    by_cases h : results p = K.pdPASS
    · simp [h]
    · simp [h, Nat.testBit_two_pow, Bool.or_assoc]

theorem mem_evaluationOrder (p : Predicate) : p ∈ evaluationOrder := by
  cases p <;> simp [evaluationOrder]

theorem closing_ulErrorFound (count : Int) (f : Frame) :
    (closing count f).ulErrorFound = f.ulErrorFound := by
  unfold closing; split <;> rfl

theorem closing_count (count : Int) (f : Frame) : (closing count f).count = intIncr count := by
  unfold closing; split <;> rfl

theorem closing_out (count : Int) (f : Frame) :
    (closing count f).out =
      f.out ++
        [Event.asm (if f.ulErrorFound ≠ 0 then "li t6, 0xbeefdead" else "li t6, 0xdeadbeef"),
          Event.printf (if f.ulErrorFound ≠ 0 then exitedLine else aliveLine) [count]] := by
  unfold closing pdFALSE
  split <;> rename_i h <;> simp [h]

/-- The events of one period: the twelve segments in order, then the marker and
the summary line. -/
theorem callback_out (K : PortConfig) (results : Predicate → Int) (count : Int) :
    (MainMinimal.prvCheckTimerCallback K results count).out =
      evaluationOrder.flatMap (segment K results) ++
        [Event.asm (if (MainMinimal.prvCheckTimerCallback K results count).ulErrorFound ≠ 0
            then "li t6, 0xbeefdead" else "li t6, 0xdeadbeef"),
         Event.printf (if (MainMinimal.prvCheckTimerCallback K results count).ulErrorFound ≠ 0
            then exitedLine else aliveLine) [count]] := by
  rw [prvCheckTimerCallback_eq_closing, closing_out, closing_ulErrorFound]
  unfold checkTable
  rw [runChecks_out]
  rfl

/-- Bit `k` of the final bitmask is set exactly when a predicate owning bit `k`
did not return `pdPASS`. -/
theorem callback_testBit (K : PortConfig) (results : Predicate → Int) (count : Int) (k : Nat) :
    (MainMinimal.prvCheckTimerCallback K results count).ulErrorFound.testBit k = true ↔
      ∃ p, bitOf p = k ∧ results p ≠ K.pdPASS := by
  rw [prvCheckTimerCallback_eq_closing, closing_ulErrorFound]
  unfold checkTable
  rw [runChecks_testBit]
  simp only [pdFALSE, Nat.zero_testBit, Bool.false_or, List.any_eq_true, decide_eq_true_eq]
  constructor
  · rintro ⟨p, _, hp⟩; exact ⟨p, hp⟩
  · rintro ⟨p, hp⟩; exact ⟨p, mem_evaluationOrder p, hp⟩

theorem callback_count (K : PortConfig) (results : Predicate → Int) (count : Int) :
    (MainMinimal.prvCheckTimerCallback K results count).count = intIncr count := by
  rw [prvCheckTimerCallback_eq_closing, closing_count]

/-- The bitmask is zero exactly when every predicate returned `pdPASS`. -/
theorem callback_zero_iff (K : PortConfig) (results : Predicate → Int) (count : Int) :
    (MainMinimal.prvCheckTimerCallback K results count).ulErrorFound = 0 ↔
      ∀ p, results p = K.pdPASS := by
  constructor
  · intro h p
    by_contra hp
    have := (callback_testBit K results count (bitOf p)).mpr ⟨p, rfl, hp⟩
    rw [h] at this
    simp at this
  · intro h
    apply Nat.eq_of_testBit_eq
    intro k
    rw [Nat.zero_testBit]
    by_contra hk
    rw [Bool.not_eq_false] at hk
    obtain ⟨p, _, hp⟩ := (callback_testBit K results count k).mp hk
    exact hp (h p)

theorem intIncr_eq (c : Int) (hlo : INT_MIN ≤ c) (hhi : c < INT_MAX) : intIncr c = c + 1 := by
  unfold intIncr
  unfold INT_MIN at hlo
  unfold INT_MAX at hhi
  omega

theorem bitOf_injective (p q : Predicate) (h : bitOf p = bitOf q) : p = q := by
  cases p <;> cases q <;> simp [bitOf] at h <;> rfl

theorem errorLine_injective (p q : Predicate) (h : errorLine p = errorLine q) : p = q := by
  cases p <;> cases q <;> first | rfl | (exfalso; revert h; decide)

theorem errorLine_not_summary (p : Predicate) :
    errorLine p ≠ exitedLine ∧ errorLine p ≠ aliveLine ∧
      errorLine p ≠ exitedLineFull := by
  cases p <;> decide

theorem isErrorLine_errorLine (p : Predicate) (args : List Int) :
    (Event.printf (errorLine p) args).isErrorLine = true := by
  simp only [Event.isErrorLine, decide_eq_true_eq]
  exact ⟨p, mem_evaluationOrder p, rfl⟩

theorem isSummary_errorLine (p : Predicate) (args : List Int) :
    (Event.printf (errorLine p) args).isSummary = false := by
  have h := errorLine_not_summary p
  simp [Event.isSummary, h.1, h.2.1, h.2.2]

theorem isErrorLine_call (p : Predicate) (ret : Int) :
    (Event.call p ret).isErrorLine = false := rfl

theorem isErrorLine_asm (instr : String) : (Event.asm instr).isErrorLine = false := rfl

theorem isSummary_call (p : Predicate) (ret : Int) : (Event.call p ret).isSummary = false := rfl

theorem isSummary_asm (instr : String) : (Event.asm instr).isSummary = false := rfl

theorem isErrorLine_exitedLine (args : List Int) :
    (Event.printf exitedLine args).isErrorLine = false := by
  simp only [Event.isErrorLine]; decide

theorem isErrorLine_aliveLine (args : List Int) :
    (Event.printf aliveLine args).isErrorLine = false := by
  simp only [Event.isErrorLine]; decide

theorem isSummary_exitedLine (args : List Int) :
    (Event.printf exitedLine args).isSummary = true := by
  simp [Event.isSummary]

theorem isSummary_aliveLine (args : List Int) :
    (Event.printf aliveLine args).isSummary = true := by
  simp [Event.isSummary]

theorem flatMap_segment_callee (K : PortConfig) (results : Predicate → Int)
    (T : List Predicate) :
    (T.flatMap (segment K results)).filterMap Event.callee = T := by
  induction T with
  | nil => rfl
  | cons p T ih =>
    rw [List.flatMap_cons, List.filterMap_append, ih]
    unfold segment
    split <;> simp [Event.callee]

theorem flatMap_segment_errorLines (K : PortConfig) (results : Predicate → Int)
    (T : List Predicate) :
    (T.flatMap (segment K results)).filter Event.isErrorLine =
      (T.filter (failed K results)).map fun p => Event.printf (errorLine p) [] := by
  induction T with
  | nil => rfl
  | cons p T ih =>
    rw [List.flatMap_cons, List.filter_append, ih]
    unfold segment failed
    by_cases h : results p = K.pdPASS
    · simp [h, isErrorLine_call]
    · simp [h, isErrorLine_errorLine, isErrorLine_call]

theorem flatMap_segment_summary (K : PortConfig) (results : Predicate → Int)
    (T : List Predicate) :
    (T.flatMap (segment K results)).filter Event.isSummary = [] := by
  induction T with
  | nil => rfl
  | cons p T ih =>
    rw [List.flatMap_cons, List.filter_append, ih]
    unfold segment
    split <;> simp [isSummary_errorLine, isSummary_call]

theorem mem_flatMap_segment (K : PortConfig) (results : Predicate → Int) (p : Predicate) :
    Event.printf (errorLine p) [] ∈ evaluationOrder.flatMap (segment K results) ↔
      results p ≠ K.pdPASS := by
  rw [List.mem_flatMap]
  constructor
  · rintro ⟨q, _, hq⟩
    unfold segment at hq
    by_cases h : results q = K.pdPASS
    · simp [h] at hq
    · simp only [ne_eq, h, not_false_eq_true, ↓reduceIte, List.mem_cons, reduceCtorEq,
        Event.printf.injEq, and_true, List.mem_nil_iff, or_false, false_or] at hq
      have := errorLine_injective p q hq
      subst this
      exact h
  · intro h
    refine ⟨p, mem_evaluationOrder p, ?_⟩
    unfold segment
    simp [h]

theorem count_evaluationOrder (p : Predicate) : evaluationOrder.count p = 1 := by
  cases p <;> decide

/-- The error lines of one period are those of the failing predicates, in
evaluation order. -/
theorem callback_errorLines (K : PortConfig) (results : Predicate → Int) (count : Int) :
    (MainMinimal.prvCheckTimerCallback K results count).out.filter Event.isErrorLine =
      (evaluationOrder.filter (failed K results)).map
        (fun p => Event.printf (errorLine p) []) := by
  rw [callback_out, List.filter_append, flatMap_segment_errorLines]
  by_cases h : (MainMinimal.prvCheckTimerCallback K results count).ulErrorFound = 0
  · simp [h, isErrorLine_aliveLine, isErrorLine_asm]
  · simp [h, isErrorLine_exitedLine, isErrorLine_asm]

/-! ## Claims -/

/-- C1: one invocation of the callback of `main_minimal.c` calls each of the
twelve predicates exactly once in source order, whatever they return, and
prints the error line of a predicate exactly when that predicate returned a
value other than `pdPASS`, the lines in predicate order; every check is
evaluated and reported whatever the earlier ones returned. -/
theorem C1_every_predicate_called_and_reported (K : PortConfig)
    (results : Predicate → Int) (count : Int) :
    (MainMinimal.prvCheckTimerCallback K results count).out.filterMap Event.callee =
        [ Predicate.xAreAbortDelayTestTasksStillRunning,
          Predicate.xAreBlockingQueuesStillRunning,
          Predicate.xAreBlockTimeTestTasksStillRunning,
          Predicate.xAreCountingSemaphoreTasksStillRunning,
          Predicate.xAreDynamicPriorityTasksStillRunning,
          Predicate.xIsCreateTaskStillRunning,
          Predicate.xAreIntegerMathsTaskStillRunning,
          Predicate.xAreMessageBufferTasksStillRunning,
          Predicate.xArePollingQueuesStillRunning,
          Predicate.xAreQueuePeekTasksStillRunning,
          Predicate.xAreRecursiveMutexTasksStillRunning,
          Predicate.xAreSemaphoreTasksStillRunning ] ∧
      (∀ p, ((MainMinimal.prvCheckTimerCallback K results count).out.filterMap
          Event.callee).count p = 1) ∧
      (MainMinimal.prvCheckTimerCallback K results count).out.filter Event.isErrorLine =
        (evaluationOrder.filter (failed K results)).map
          (fun p => Event.printf (errorLine p) []) ∧
      (∀ p, Event.printf (errorLine p) [] ∈
          (MainMinimal.prvCheckTimerCallback K results count).out ↔ results p ≠ K.pdPASS) ∧
      ∃ closingEvents,
        (MainMinimal.prvCheckTimerCallback K results count).out =
          evaluationOrder.flatMap (segment K results) ++ closingEvents := by
  have hcalls : (MainMinimal.prvCheckTimerCallback K results count).out.filterMap
      Event.callee = evaluationOrder := by
    rw [callback_out, List.filterMap_append, flatMap_segment_callee]
    simp [Event.callee]
  refine ⟨hcalls, ?_, ?_, ?_, ?_⟩
  · intro p
    rw [hcalls]
    exact count_evaluationOrder p
  · exact callback_errorLines K results count
  · intro p
    rw [callback_out, List.mem_append, mem_flatMap_segment]
    simp
  · exact ⟨_, callback_out K results count⟩

/-- C2: the final bitmask of the callback of `main_minimal.c` reflects exactly
the set of failing predicates: two periods end with equal bitmasks exactly when
the same predicates returned a value other than `pdPASS`, each predicate owns a
bit of its own, set exactly when it failed, and the bitmask is zero exactly
when every predicate returned `pdPASS`. -/
theorem C2_bitmask_reflects_failing_set (K : PortConfig) (results₁ results₂ : Predicate → Int)
    (count₁ count₂ : Int) :
    ((MainMinimal.prvCheckTimerCallback K results₁ count₁).ulErrorFound =
        (MainMinimal.prvCheckTimerCallback K results₂ count₂).ulErrorFound ↔
      ∀ p, (results₁ p ≠ K.pdPASS ↔ results₂ p ≠ K.pdPASS)) ∧
    ((MainMinimal.prvCheckTimerCallback K results₁ count₁).ulErrorFound = 0 ↔
      ∀ p, results₁ p = K.pdPASS) ∧
    (∀ p, (MainMinimal.prvCheckTimerCallback K results₁ count₁).ulErrorFound.testBit (bitOf p)
      = true ↔ results₁ p ≠ K.pdPASS) ∧
    Function.Injective bitOf := by
  have hbit : ∀ (results : Predicate → Int) (count : Int) (p : Predicate),
      (MainMinimal.prvCheckTimerCallback K results count).ulErrorFound.testBit (bitOf p) = true ↔
        results p ≠ K.pdPASS := by
    intro results count p
    rw [callback_testBit]
    constructor
    · rintro ⟨q, hq, hf⟩
      rw [← bitOf_injective q p hq]
      exact hf
    · intro h
      exact ⟨p, rfl, h⟩
  refine ⟨⟨?_, ?_⟩, callback_zero_iff K results₁ count₁, hbit results₁ count₁,
    fun p q h => bitOf_injective p q h⟩
  · intro h p
    rw [← hbit results₁ count₁ p, ← hbit results₂ count₂ p, h]
  · intro h
    apply Nat.eq_of_testBit_eq
    intro k
    rw [Bool.eq_iff_iff, callback_testBit, callback_testBit]
    constructor
    · rintro ⟨p, hp, hf⟩
      exact ⟨p, hp, (h p).mp hf⟩
    · rintro ⟨p, hp, hf⟩
      exact ⟨p, hp, (h p).mpr hf⟩

/-- C3, as stated, fails: when only `xArePollingQueuesStillRunning`, the ninth
predicate called, reports failure, bit 9 of the bitmask is clear and bit 10 is
set, so bit `i` does not follow the `i`-th predicate for `i` from 1 to 12. -/
theorem C3_bit_nine_is_not_the_ninth_predicate :
    ¬ (∀ i, 1 ≤ i → i ≤ 12 →
      ((MainMinimal.prvCheckTimerCallback K0 onlyPollingQueuesFails 0).ulErrorFound.testBit i
          = true ↔
        ∃ p, evaluationOrder[i - 1]? = some p ∧ onlyPollingQueuesFails p ≠ K0.pdPASS)) := by
  intro h
  have h9 := (h 9 (by decide) (by decide)).mpr
    ⟨Predicate.xArePollingQueuesStillRunning, by decide, by decide⟩
  have hmask : (MainMinimal.prvCheckTimerCallback K0 onlyPollingQueuesFails 0).ulErrorFound
      = 1024 := by decide
  rw [hmask] at h9
  revert h9
  decide

/-- C3, amended: bit `k` of the final bitmask of the callback of
`main_minimal.c` is set exactly when the predicate owning bit `k` returned a
value other than `pdPASS`, where the first eight predicates called own bits 1
to 8 and the last four own bits 10 to 13; bits 0 and 9 and every bit from 14
up are never set. -/
theorem C3_bit_of_each_predicate (K : PortConfig) (results : Predicate → Int) (count : Int) :
    (∀ k, (MainMinimal.prvCheckTimerCallback K results count).ulErrorFound.testBit k = true ↔
      ∃ p, bitOf p = k ∧ results p ≠ K.pdPASS) ∧
    evaluationOrder.map bitOf = [1, 2, 3, 4, 5, 6, 7, 8, 10, 11, 12, 13] ∧
    (MainMinimal.prvCheckTimerCallback K results count).ulErrorFound.testBit 0 = false ∧
    (MainMinimal.prvCheckTimerCallback K results count).ulErrorFound.testBit 9 = false ∧
    (MainMinimal.prvCheckTimerCallback K results count).ulErrorFound < 2 ^ 14 := by
  have hclear : ∀ k, (∀ p, bitOf p ≠ k) →
      (MainMinimal.prvCheckTimerCallback K results count).ulErrorFound.testBit k = false := by
    intro k hk
    by_contra hset
    rw [Bool.not_eq_false] at hset
    obtain ⟨p, hp, _⟩ := (callback_testBit K results count k).mp hset
    exact hk p hp
  refine ⟨callback_testBit K results count, by decide, ?_, ?_, ?_⟩
  · exact hclear 0 (fun p => by cases p <;> decide)
  · exact hclear 9 (fun p => by cases p <;> decide)
  · apply Nat.lt_pow_two_of_testBit
    intro k hk
    apply hclear
    intro p
    cases p <;> simp only [bitOf] <;> omega

/-- C5: one invocation of the callback of `main_minimal.c` leaves the counter
one higher than it found it, for every counter value below `INT_MAX` and
whatever the twelve predicates return. -/
theorem C5_minimal_counter_increments (K : PortConfig) (results : Predicate → Int) (c : Int)
    (hlo : INT_MIN ≤ c) (hhi : c < INT_MAX) :
    (MainMinimal.prvCheckTimerCallback K results c).count = c + 1 := by
  rw [callback_count, intIncr_eq c hlo hhi]

/-- C5 at the counter value 41, in a period with one failing predicate. -/
theorem C5_minimal_counter_increments_witness :
    (INT_MIN ≤ 41 ∧ (41 : Int) < INT_MAX) ∧
      (MainMinimal.prvCheckTimerCallback K0 onlyPollingQueuesFails 41).count = 41 + 1 :=
  ⟨⟨by decide, by decide⟩,
    C5_minimal_counter_increments K0 onlyPollingQueuesFails 41 (by decide) (by decide)⟩

/-- C7: every invocation of the callback of `main_minimal.c` emits exactly one
summary line, as its last event, after the calls and error lines of all twelve
checks; it is the all-alive line exactly when the bitmask is zero, which is
exactly when every predicate returned `pdPASS`, and the exited line otherwise;
either way its argument is the counter value on entry. -/
theorem C7_minimal_one_summary_line (K : PortConfig) (results : Predicate → Int)
    (count : Int) :
    (∃ marker, (MainMinimal.prvCheckTimerCallback K results count).out =
      evaluationOrder.flatMap (segment K results) ++
        [Event.asm marker,
          Event.printf
            (if (MainMinimal.prvCheckTimerCallback K results count).ulErrorFound = 0
              then "[%d] All threads still alive! \r\n"
              else "[%d] One or more threads has exited! \r\n") [count]]) ∧
    (MainMinimal.prvCheckTimerCallback K results count).out.filter Event.isSummary =
      [Event.printf
        (if (MainMinimal.prvCheckTimerCallback K results count).ulErrorFound = 0
          then "[%d] All threads still alive! \r\n"
          else "[%d] One or more threads has exited! \r\n") [count]] ∧
    ((MainMinimal.prvCheckTimerCallback K results count).ulErrorFound = 0 ↔
      ∀ p, results p = K.pdPASS) := by
  refine ⟨?_, ?_, callback_zero_iff K results count⟩
  · by_cases h : (MainMinimal.prvCheckTimerCallback K results count).ulErrorFound = 0
    · refine ⟨"li t6, 0xdeadbeef", ?_⟩
      rw [callback_out]
      simp only [h, ne_eq, not_true_eq_false, ↓reduceIte]; rfl
    · refine ⟨"li t6, 0xbeefdead", ?_⟩
      rw [callback_out]
      simp only [h, ne_eq, not_false_eq_true, ↓reduceIte]; rfl
  · rw [callback_out, List.filter_append, flatMap_segment_summary]
    by_cases h : (MainMinimal.prvCheckTimerCallback K results count).ulErrorFound = 0
    · simp only [h, ne_eq, not_true_eq_false, ↓reduceIte, List.nil_append]
      simp [isSummary_asm, isSummary_aliveLine]
      rfl
    · simp only [h, ne_eq, not_false_eq_true, ↓reduceIte, List.nil_append]
      simp [isSummary_asm, isSummary_exitedLine]
      rfl

theorem callback_count_errorLine (K : PortConfig) (results : Predicate → Int) (count : Int)
    (p : Predicate) (hp : results p ≠ K.pdPASS) :
    (MainMinimal.prvCheckTimerCallback K results count).out.count
      (Event.printf (errorLine p) []) = 1 := by
  rw [← List.count_filter (isErrorLine_errorLine p []), callback_errorLines K results count]
  have hinj : Function.Injective fun q => Event.printf (errorLine q) [] := by
    intro a b hab
    simp only [Event.printf.injEq, and_true] at hab
    exact errorLine_injective a b hab
  rw [List.count_map_of_injective _ _ hinj]
  have hfailed : failed K results p = true := by simp [failed, hp]
  rw [List.count_filter hfailed]
  exact count_evaluationOrder p

theorem callback_summary (K : PortConfig) (results : Predicate → Int) (count : Int)
    (p : Predicate) (hp : results p ≠ K.pdPASS) :
    (MainMinimal.prvCheckTimerCallback K results count).out.filter Event.isSummary =
      [Event.printf exitedLine [count]] := by
  have hne : (MainMinimal.prvCheckTimerCallback K results count).ulErrorFound ≠ 0 := by
    intro h
    exact hp ((callback_zero_iff K results count).mp h p)
  rw [callback_out, List.filter_append, flatMap_segment_summary]
  simp [hne, isSummary_asm, isSummary_exitedLine]

/-- C9: a predicate that fails in each of `n` successive periods is reported in
each of them: the events of the `n` invocations of the callback of
`main_minimal.c` hold `n` error lines of that predicate and `n` exited summary
lines, tagged in order with `c`, `c + 1`, up to `c + n - 1`, and the counter
ends at `c + n`. -/
theorem C9_persistent_failure_reported_every_period (K : PortConfig)
    (periods : List (Predicate → Int)) (c : Int) (p : Predicate)
    (hfail : ∀ results ∈ periods, results p ≠ K.pdPASS)
    (hlo : INT_MIN ≤ c) (hhi : c + periods.length ≤ INT_MAX) :
    (runPeriods K periods c).1.count (Event.printf (errorLine p) []) = periods.length ∧
    (runPeriods K periods c).1.filter Event.isSummary =
      (List.range periods.length).map
        (fun (i : Nat) =>
          Event.printf "[%d] One or more threads has exited! \r\n" [c + (i : Int)]) ∧
    (runPeriods K periods c).2 = c + periods.length := by
  induction periods generalizing c with
  | nil => simp [runPeriods]
  | cons results periods ih =>
    have hp : results p ≠ K.pdPASS := hfail results (List.mem_cons_self _ _)
    have hlen : ((results :: periods).length : Int) = (periods.length : Int) + 1 := by
      simp
    rw [hlen] at hhi
    have hc : (MainMinimal.prvCheckTimerCallback K results c).count = c + 1 := by
      rw [callback_count]
      apply intIncr_eq c hlo
      omega
    have hrest := ih (c + 1) (fun r hr => hfail r (List.mem_cons_of_mem _ hr))
      (by omega) (by omega)
    obtain ⟨h1, h2, h3⟩ := hrest
    simp only [runPeriods, hc]
    refine ⟨?_, ?_, ?_⟩
    · rw [List.count_append, callback_count_errorLine K results c p hp, h1]
      simp only [List.length_cons]
      omega
    · rw [List.filter_append, callback_summary K results c p hp, h2, List.length_cons,
        List.range_succ_eq_map, List.map_cons, List.map_map]
      simp only [List.singleton_append, Nat.cast_zero, add_zero, List.cons.injEq, true_and]
      refine ⟨rfl, ?_⟩
      apply List.map_congr_left
      intro i _
      simp only [Function.comp_apply, Nat.cast_succ, Event.printf.injEq, true_and,
        List.cons.injEq, and_true]
      omega
    · rw [h3, hlen]
      omega

/-- C9 for five periods in each of which `xArePollingQueuesStillRunning`
fails, starting with the counter at 7. -/
theorem C9_persistent_failure_reported_every_period_witness :
    ((∀ results ∈ [allFail, onlyPollingQueuesFails, allFail, onlyPollingQueuesFails, allFail],
        results Predicate.xArePollingQueuesStillRunning ≠ K0.pdPASS) ∧
      INT_MIN ≤ 7 ∧
      (7 : Int) +
        [allFail, onlyPollingQueuesFails, allFail, onlyPollingQueuesFails, allFail].length
        ≤ INT_MAX) ∧
    ((runPeriods K0 [allFail, onlyPollingQueuesFails, allFail, onlyPollingQueuesFails, allFail]
        7).1.count (Event.printf (errorLine Predicate.xArePollingQueuesStillRunning) []) =
        [allFail, onlyPollingQueuesFails, allFail, onlyPollingQueuesFails, allFail].length ∧
      (runPeriods K0 [allFail, onlyPollingQueuesFails, allFail, onlyPollingQueuesFails, allFail]
        7).1.filter Event.isSummary =
        (List.range
          [allFail, onlyPollingQueuesFails, allFail, onlyPollingQueuesFails, allFail].length).map
          (fun (i : Nat) =>
            Event.printf "[%d] One or more threads has exited! \r\n" [7 + (i : Int)]) ∧
      (runPeriods K0 [allFail, onlyPollingQueuesFails, allFail, onlyPollingQueuesFails, allFail]
        7).2 =
        7 + [allFail, onlyPollingQueuesFails, allFail, onlyPollingQueuesFails, allFail].length) :=
  have hfail : ∀ results ∈
      [allFail, onlyPollingQueuesFails, allFail, onlyPollingQueuesFails, allFail],
      results Predicate.xArePollingQueuesStillRunning ≠ K0.pdPASS := by
    intro results h
    simp only [List.mem_cons, List.mem_singleton, List.mem_nil_iff, or_false] at h
    rcases h with h | h | h | h | h <;> subst h <;> decide
  ⟨⟨hfail, by decide, by decide⟩,
    C9_persistent_failure_reported_every_period K0
      [allFail, onlyPollingQueuesFails, allFail, onlyPollingQueuesFails, allFail] 7
      Predicate.xArePollingQueuesStillRunning hfail (by decide) (by decide)⟩

/-- What the callback of `main_full.c` leaves in the counter: one more after a
period without failure, the value it found after a period with a failure. -/
theorem full_callback_count (K : PortConfig) (results : Predicate → Int) (c : Int) :
    (MainFull.prvCheckTimerCallback K results c).count =
      if results Predicate.xAreAbortDelayTestTasksStillRunning ≠ K.pdPASS then c
      else intIncr c := by
  unfold MainFull.prvCheckTimerCallback check pdFALSE
  by_cases h : results Predicate.xAreAbortDelayTestTasksStillRunning = K.pdPASS
  · simp [h]
  · simp [h]

/-- C4: in a period in which `xAreAbortDelayTestTasksStillRunning` returns 0
instead of `pdPASS`, the callback of `main_full.c` entered with the counter at
5 leaves it at 5, not at 6, while with the same counter a period without
failure leaves it at 6. -/
theorem C4_full_counter_unchanged_on_failure :
    allFail Predicate.xAreAbortDelayTestTasksStillRunning ≠ K0.pdPASS ∧
    (MainFull.prvCheckTimerCallback K0 allFail 5).count = 5 ∧
    (MainFull.prvCheckTimerCallback K0 allFail 5).count ≠ 5 + 1 ∧
    (MainFull.prvCheckTimerCallback K0 allPass 5).count = 5 + 1 := by
  refine ⟨by decide, ?_, ?_, ?_⟩
  · rw [full_callback_count]; decide
  · rw [full_callback_count]; decide
  · rw [full_callback_count]; decide

/-- C8: in a period in which `xAreAbortDelayTestTasksStillRunning` returns 0
instead of `pdPASS`, the callback of `main_full.c` entered with the counter at
7 emits one summary line, and that line is the exited line with no argument:
the counter is not printed; after a period without failure the summary line
does carry the counter. -/
theorem C8_full_failure_line_not_tagged :
    (MainFull.prvCheckTimerCallback K0 allFail 7).out =
      [ Event.call Predicate.xAreAbortDelayTestTasksStillRunning 0,
        Event.printf "Error in abort delay test tasks \r\n" [],
        Event.asm "li t6, 0xbeefdead",
        Event.printf "One or more threads has exited! \r\n" [] ] ∧
    (MainFull.prvCheckTimerCallback K0 allFail 7).out.filter Event.isSummary =
      [Event.printf "One or more threads has exited! \r\n" []] ∧
    (MainFull.prvCheckTimerCallback K0 allPass 7).out.filter Event.isSummary =
      [Event.printf "[%d] All threads still alive! \r\n" [7]] := by
  refine ⟨by decide, by decide, by decide⟩

/-- C6, as stated, fails: when `xTimerCreate` returns `NULL`, both `main_minimal`
and `main_full` still call `vTaskStartScheduler`, and the scheduler runs. -/
theorem C6_scheduler_started_without_timer :
    Call.vTaskStartScheduler ∈
      (MainMinimal.main_minimal K0
        { xTimerCreate := NULL, vTaskStartSchedulerReturns := false }).calls ∧
    (MainMinimal.main_minimal K0
        { xTimerCreate := NULL, vTaskStartSchedulerReturns := false }).final =
      Final.schedulerRunning ∧
    Call.vTaskStartScheduler ∈
      (MainFull.main_full K0
        { xTimerCreate := NULL, vTaskStartSchedulerReturns := false }).calls ∧
    (MainFull.main_full K0
        { xTimerCreate := NULL, vTaskStartSchedulerReturns := false }).final =
      Final.schedulerRunning := by
  refine ⟨by decide, by decide, by decide, by decide⟩

/-- C6, amended: when `xTimerCreate` returns `NULL`, `main_minimal` and
`main_full` skip `xTimerStart` and nothing else: they go on to call
`vTaskStartScheduler`, once and as their last call, and end in the trailing
`for( ;; )` only when `vTaskStartScheduler` returns. -/
theorem C6_setup_continues_without_timer (K : PortConfig) (E : SetupInput)
    (hnull : E.xTimerCreate = NULL) :
    (MainMinimal.main_minimal K E).calls =
      [ Call.vCreateAbortDelayTasks,
        Call.vStartBlockingQueueTasks (K.tskIDLE_PRIORITY + 2),
        Call.vCreateBlockTimeTasks,
        Call.vStartCountingSemaphoreTasks,
        Call.vStartDynamicPriorityTasks,
        Call.vStartIntegerMathTasks (K.tskIDLE_PRIORITY + 1),
        Call.vStartMessageBufferTasks (K.configMINIMAL_STACK_SIZE * 2),
        Call.vStartPolledQueueTasks (K.tskIDLE_PRIORITY + 1),
        Call.vStartQueuePeekTasks,
        Call.vStartRecursiveMutexTasks,
        Call.vStartSemaphoreTasks (K.tskIDLE_PRIORITY + 1),
        Call.xTimerCreate "CheckTimer" (K.pdMS_TO_TICKS 3000) K.pdTRUE 0
          CallbackRef.main_minimal_prvCheckTimerCallback,
        Call.vCreateSuicidalTasks (K.tskIDLE_PRIORITY + 1),
        Call.vTaskStartScheduler ] ∧
    (MainFull.main_full K E).calls =
      [ Call.vCreateAbortDelayTasks,
        Call.xTimerCreate "CheckTimer" (K.pdMS_TO_TICKS 3000) K.pdTRUE 0
          CallbackRef.main_full_prvCheckTimerCallback,
        Call.vTaskStartScheduler ] ∧
    ((MainMinimal.main_minimal K E).final = Final.forEver ↔
      E.vTaskStartSchedulerReturns = true) ∧
    ((MainFull.main_full K E).final = Final.forEver ↔
      E.vTaskStartSchedulerReturns = true) := by
  refine ⟨?_, ?_, ?_, ?_⟩
  · simp [MainMinimal.main_minimal, hnull, MainMinimal.mainBLOCK_Q_PRIORITY,
      MainMinimal.mainINTEGER_TASK_PRIORITY, MainMinimal.mainQUEUE_POLL_PRIORITY,
      MainMinimal.mainSEM_TEST_PRIORITY, MainMinimal.mainCHECK_TIMER_PERIOD_MS,
      MainMinimal.mainSUICIDAL_TASK_PRIORITY]
  · simp [MainFull.main_full, hnull, MainFull.mainCHECK_TIMER_PERIOD_MS]
  · cases h : E.vTaskStartSchedulerReturns <;> simp [MainMinimal.main_minimal, h]
  · cases h : E.vTaskStartSchedulerReturns <;> simp [MainFull.main_full, h]

/-- C6, amended, for a run in which `xTimerCreate` returns `NULL` and the
scheduler starts. -/
theorem C6_setup_continues_without_timer_witness :
    ({ xTimerCreate := 0, vTaskStartSchedulerReturns := false } : SetupInput).xTimerCreate
        = NULL ∧
      ((MainMinimal.main_minimal K0
          { xTimerCreate := 0, vTaskStartSchedulerReturns := false }).calls =
        [ Call.vCreateAbortDelayTasks,
          Call.vStartBlockingQueueTasks (K0.tskIDLE_PRIORITY + 2),
          Call.vCreateBlockTimeTasks,
          Call.vStartCountingSemaphoreTasks,
          Call.vStartDynamicPriorityTasks,
          Call.vStartIntegerMathTasks (K0.tskIDLE_PRIORITY + 1),
          Call.vStartMessageBufferTasks (K0.configMINIMAL_STACK_SIZE * 2),
          Call.vStartPolledQueueTasks (K0.tskIDLE_PRIORITY + 1),
          Call.vStartQueuePeekTasks,
          Call.vStartRecursiveMutexTasks,
          Call.vStartSemaphoreTasks (K0.tskIDLE_PRIORITY + 1),
          Call.xTimerCreate "CheckTimer" (K0.pdMS_TO_TICKS 3000) K0.pdTRUE 0
            CallbackRef.main_minimal_prvCheckTimerCallback,
          Call.vCreateSuicidalTasks (K0.tskIDLE_PRIORITY + 1),
          Call.vTaskStartScheduler ] ∧
      (MainFull.main_full K0
          { xTimerCreate := 0, vTaskStartSchedulerReturns := false }).calls =
        [ Call.vCreateAbortDelayTasks,
          Call.xTimerCreate "CheckTimer" (K0.pdMS_TO_TICKS 3000) K0.pdTRUE 0
            CallbackRef.main_full_prvCheckTimerCallback,
          Call.vTaskStartScheduler ] ∧
      ((MainMinimal.main_minimal K0
          { xTimerCreate := 0, vTaskStartSchedulerReturns := false }).final = Final.forEver ↔
        ({ xTimerCreate := 0, vTaskStartSchedulerReturns := false } :
          SetupInput).vTaskStartSchedulerReturns = true) ∧
      ((MainFull.main_full K0
          { xTimerCreate := 0, vTaskStartSchedulerReturns := false }).final = Final.forEver ↔
        ({ xTimerCreate := 0, vTaskStartSchedulerReturns := false } :
          SetupInput).vTaskStartSchedulerReturns = true)) :=
  ⟨rfl, C6_setup_continues_without_timer K0
    { xTimerCreate := 0, vTaskStartSchedulerReturns := false } rfl⟩

/-- C10: `main_minimal` and `main_full` each make one `xTimerCreate` call, with
period `pdMS_TO_TICKS( 3000 )`, auto-reload `pdTRUE` and the
`prvCheckTimerCallback` of their file; when the handle returned is not `NULL`
they call `xTimerStart` once, on that handle with block time 0, before
`vTaskStartScheduler`; when it is `NULL` they do not call `xTimerStart`. -/
theorem C10_one_timer_created_and_started (K : PortConfig) (E : SetupInput) :
    ((MainMinimal.main_minimal K E).calls.filter Call.isTimerCreate =
        [Call.xTimerCreate "CheckTimer" (K.pdMS_TO_TICKS 3000) K.pdTRUE 0
          CallbackRef.main_minimal_prvCheckTimerCallback] ∧
      (MainMinimal.main_minimal K E).calls.filter Call.isTimerStart =
        (if E.xTimerCreate ≠ NULL then [Call.xTimerStart E.xTimerCreate 0] else []) ∧
      (beforeScheduler (MainMinimal.main_minimal K E).calls).filter
          (fun c => c.isTimerCreate || c.isTimerStart) =
        Call.xTimerCreate "CheckTimer" (K.pdMS_TO_TICKS 3000) K.pdTRUE 0
            CallbackRef.main_minimal_prvCheckTimerCallback ::
          (if E.xTimerCreate ≠ NULL then [Call.xTimerStart E.xTimerCreate 0] else []) ∧
      (MainMinimal.main_minimal K E).calls.count Call.vTaskStartScheduler = 1) ∧
    ((MainFull.main_full K E).calls.filter Call.isTimerCreate =
        [Call.xTimerCreate "CheckTimer" (K.pdMS_TO_TICKS 3000) K.pdTRUE 0
          CallbackRef.main_full_prvCheckTimerCallback] ∧
      (MainFull.main_full K E).calls.filter Call.isTimerStart =
        (if E.xTimerCreate ≠ NULL then [Call.xTimerStart E.xTimerCreate 0] else []) ∧
      (beforeScheduler (MainFull.main_full K E).calls).filter
          (fun c => c.isTimerCreate || c.isTimerStart) =
        Call.xTimerCreate "CheckTimer" (K.pdMS_TO_TICKS 3000) K.pdTRUE 0
            CallbackRef.main_full_prvCheckTimerCallback ::
          (if E.xTimerCreate ≠ NULL then [Call.xTimerStart E.xTimerCreate 0] else []) ∧
      (MainFull.main_full K E).calls.count Call.vTaskStartScheduler = 1) ∧
    CallbackRef.run CallbackRef.main_minimal_prvCheckTimerCallback =
      MainMinimal.prvCheckTimerCallback ∧
    CallbackRef.run CallbackRef.main_full_prvCheckTimerCallback =
      MainFull.prvCheckTimerCallback := by
  refine ⟨?_, ?_, rfl, rfl⟩
  · by_cases h : E.xTimerCreate = NULL
    · simp [MainMinimal.main_minimal, h, MainMinimal.mainCHECK_TIMER_PERIOD_MS,
        MainMinimal.mainDONT_BLOCK, Call.isTimerCreate, Call.isTimerStart, beforeScheduler,
        List.filter, List.takeWhile]
    · simp [MainMinimal.main_minimal, h, MainMinimal.mainCHECK_TIMER_PERIOD_MS,
        MainMinimal.mainDONT_BLOCK, Call.isTimerCreate, Call.isTimerStart, beforeScheduler,
        List.filter, List.takeWhile]
  · by_cases h : E.xTimerCreate = NULL
    · simp [MainFull.main_full, h, MainFull.mainCHECK_TIMER_PERIOD_MS,
        MainFull.mainDONT_BLOCK, Call.isTimerCreate, Call.isTimerStart, beforeScheduler,
        List.filter, List.takeWhile]
    · simp [MainFull.main_full, h, MainFull.mainCHECK_TIMER_PERIOD_MS,
        MainFull.mainDONT_BLOCK, Call.isTimerCreate, Call.isTimerStart, beforeScheduler,
        List.filter, List.takeWhile]

end Demo
